import Mathlib

/-!
Verification development for the OpenAlex MCP server
(`src/openalex_mcp_server.py`).

The Python source is shallowly embedded: JSON values become an inductive
`Json` type, Python dict/list/str accesses become total Lean functions that
return `Except PyFault _` wherever the Python expression can raise, and the
network is an explicit trace of events passed through the functions.  Every
definition is translated from the source file; the few places that model
behaviour of an external library (`requests`) or of a tool that is absent
from the sources are marked in their doc comments.
-/

namespace OpenAlex

/-- JSON values as the OpenAlex code sees them.  Numbers are modelled as
integers (the fields the code touches — positions, counts, years — are
integral). -/
inductive Json where
  | null
  | bool (b : Bool)
  | num (n : Int)
  | str (s : String)
  | arr (elems : List Json)
  | obj (fields : List (String × Json))
deriving Repr, BEq

/-- Faults a Python expression can raise in the embedded fragment. -/
inductive PyFault where
  | httpError (status : Nat)
  | connectionError
  | timeoutError
  | pyError (msg : String)
deriving Repr, BEq, DecidableEq

/-- Python truthiness of a JSON value (`if x:`). -/
def truthy : Json → Bool
  | .null => false
  | .bool b => b
  | .num n => n != 0
  | .str s => s != ""
  | .arr l => !l.isEmpty
  | .obj l => !l.isEmpty

/-- Python `x or y` on JSON values (the source uses it as `... or {}`). -/
def pyOr (a b : Json) : Json := if truthy a then a else b

/-- Python `d.get(key, dflt)`: succeeds only on a dict; calling `.get` on
`None` or any non-dict raises `AttributeError`. -/
def pyGet (j : Json) (key : String) (dflt : Json) : Except PyFault Json :=
  match j with
  | .obj fields => .ok ((fields.lookup key).getD dflt)
  | _ => .error (.pyError "AttributeError: get")

/-- Python `d[key]` subscription on a dict. -/
def pySubscr (j : Json) (key : String) : Except PyFault Json :=
  match j with
  | .obj fields =>
    match fields.lookup key with
    | some v => .ok v
    | none => .error (.pyError "KeyError")
  | _ => .error (.pyError "TypeError: not subscriptable")

/-- Python `len(x)`. -/
def pyLen (j : Json) : Except PyFault Nat :=
  match j with
  | .arr l => .ok l.length
  | .obj l => .ok l.length
  | .str s => .ok s.length
  | _ => .error (.pyError "TypeError: len")

/-- Python `x[0]` on a sequence. -/
def pyIndex0 (j : Json) : Except PyFault Json :=
  match j with
  | .arr (x :: _) => .ok x
  | .arr [] => .error (.pyError "IndexError")
  | .str s =>
    match s.toList with
    | c :: _ => .ok (.str (String.mk [c]))
    | [] => .error (.pyError "IndexError")
  | _ => .error (.pyError "TypeError: not subscriptable")

/-- Python iteration `for x in j`: lists yield elements, strings yield
one-character strings, dicts yield their keys; other values raise. -/
def pyIter (j : Json) : Except PyFault (List Json) :=
  match j with
  | .arr l => .ok l
  | .str s => .ok (s.toList.map (fun c => Json.str (String.mk [c])))
  | .obj l => .ok (l.map (fun kv => Json.str kv.1))
  | _ => .error (.pyError "TypeError: not iterable")

/-- Python slicing `x[:n]` (lists and strings support it, other values
raise `TypeError`). -/
def pySlice (j : Json) (n : Nat) : Except PyFault Json :=
  match j with
  | .arr l => .ok (.arr (l.take n))
  | .str s => .ok (.str (String.mk (s.toList.take n)))
  | _ => .error (.pyError "TypeError: slice")

/-- Python `s.replace(pat, rep)` on a string value; any non-string value
raises `AttributeError`. -/
def pyReplace (j : Json) (pat rep : String) : Except PyFault String :=
  match j with
  | .str s => .ok (s.replace pat rep)
  | _ => .error (.pyError "AttributeError: replace")

/-- Python `s.split(sep)` on a string value (non-empty separator). -/
def pySplit (j : Json) (sep : String) : Except PyFault (List String) :=
  match j with
  | .str s => .ok (s.splitOn sep)
  | _ => .error (.pyError "AttributeError: split")

mutual
/-- Python `str(x)` of a JSON value, as an f-string renders it:
strings verbatim, `None`/`True`/`False`, integers in decimal, and the
`repr` form for containers. -/
def pyStr : Json → String
  | .str s => s
  | j => pyReprJ j

/-- Python `repr(x)` of a JSON value (string quotes written with
escapes). -/
def pyReprJ : Json → String
  | .null => "None"
  | .bool true => "True"
  | .bool false => "False"
  | .num n => toString n
  | .str s => "\x27" ++ s ++ "\x27"
  | .arr l => "[" ++ String.intercalate ", " (pyReprList l) ++ "]"
  | .obj l => "\x7b" ++ String.intercalate ", " (pyReprPairs l) ++ "\x7d"

def pyReprList : List Json → List String
  | [] => []
  | j :: js => pyReprJ j :: pyReprList js

def pyReprPairs : List (String × Json) → List String
  | [] => []
  | (k, v) :: ps => ("\x27" ++ k ++ "\x27: " ++ pyReprJ v) :: pyReprPairs ps
end

/-- Python `s.strip(\"-\")`: drop leading and trailing dash characters. -/
def stripDashes (s : String) : String :=
  let l := s.toList.dropWhile (fun c => c == '-')
  String.mk ((l.reverse.dropWhile (fun c => c == '-')).reverse)

/-- Stable insertion used to model Python `list.sort(key=lambda x: x[0])`
on (position, word) pairs: a new element goes in front of the first
strictly larger key, so elements with equal keys keep their original
relative order. -/
def insPos (x : Int × String) : List (Int × String) → List (Int × String)
  | [] => [x]
  | y :: ys => if y.1 < x.1 then y :: insPos x ys else x :: y :: ys

/-- Stable sort by position (Python `list.sort` is stable). -/
def sortByPos : List (Int × String) → List (Int × String)
  | [] => []
  | x :: xs => insPos x (sortByPos xs)

/-- Evaluate a Python list comprehension left to right: the first raised
fault propagates. -/
def exMap (f : α → Except PyFault β) : List α → Except PyFault (List β)
  | [] => .ok []
  | x :: xs => do
    let y ← f x
    let ys ← exMap f xs
    .ok (y :: ys)

/-- A sort-key entry of the abstract inverted index read as an integer
position. -/
def posInt : Json → Except PyFault Int
  | .num n => .ok n
  | _ => .error (.pyError "TypeError: position")

/-- Collect the `(pos, word)` pairs of the source loop
`for word, positions in inverted_index.items(): for pos in positions: ...`.
Positions are taken as integers, as the abstract-inverted-index data model
prescribes; a non-integer entry is modelled as a fault (the Python sort
would fault on mixed position types). -/
def collectPairs : List (String × Json) → Except PyFault (List (Int × String))
  | [] => .ok []
  | (w, ps) :: rest => do
    let posJs ← pyIter ps
    let posInts ← exMap posInt posJs
    let tail ← collectPairs rest
    .ok ((posInts.map (fun p => (p, w))) ++ tail)

/-- Source `_reconstruct_abstract` (lines 182–194): falsy input gives
`None`; otherwise flatten the word→positions map to (pos, word) pairs,
stable-sort by position and join the words with single spaces. -/
def reconstruct_abstract (inverted_index : Json) : Except PyFault Json :=
  if truthy inverted_index = false then .ok Json.null
  else
    match inverted_index with
    | .obj l => do
      let pairs ← collectPairs l
      .ok (.str (String.intercalate " " ((sortByPos pairs).map Prod.snd)))
    | _ => .error (.pyError "AttributeError: items")

/-- Source `_format_paper_brief` (lines 106–124). -/
def format_paper_brief (paper : Json) : Except PyFault Json := do
  let authorships ← pyGet paper "authorships" (.arr [])
  let first_author ←
    if truthy authorships then do
      let a0 ← pyIndex0 authorships
      let author ← pyGet a0 "author" (.obj [])
      pyGet author "display_name" .null
    else pure (Json.str "Unknown")
  let pl0 ← pyGet paper "primary_location" (.obj [])
  let primary_location := pyOr pl0 (.obj [])
  let src0 ← pyGet primary_location "source" (.obj [])
  let source := pyOr src0 (.obj [])
  let idv ← pyGet paper "id" (.str "")
  let idClean ← pyReplace idv "https://openalex.org/" ""
  let title ← pyGet paper "title" .null
  let doi ← pyGet paper "doi" .null
  let pubDate ← pyGet paper "publication_date" .null
  let cited ← pyGet paper "cited_by_count" .null
  let nAuth ← pyLen authorships
  let journal ← pyGet source "display_name" .null
  let oa ← pyGet paper "open_access" (.obj [])
  let isOa ← pyGet oa "is_oa" .null
  .ok (.obj [
    ("id", .str idClean),
    ("title", title),
    ("doi", doi),
    ("publication_date", pubDate),
    ("cited_by_count", cited),
    ("first_author", first_author),
    ("author_count", .num nAuth),
    ("journal", journal),
    ("is_oa", isOa)])

/-- One element of the authors list built by `_format_paper_full`
(lines 131–141). -/
def format_authorship (authorship : Json) : Except PyFault Json := do
  let author1 ← pyGet authorship "author" (.obj [])
  let name ← pyGet author1 "display_name" .null
  let author2 ← pyGet authorship "author" (.obj [])
  let orcid ← pyGet author2 "orcid" .null
  let position ← pyGet authorship "author_position" .null
  let insts ← pyIter (← pyGet authorship "institutions" (.arr []))
  let instNames ← exMap (fun inst => pyGet inst "display_name" .null) insts
  let countries ← pyGet authorship "countries" (.arr [])
  .ok (.obj [
    ("name", name),
    ("orcid", orcid),
    ("position", position),
    ("institutions", .arr instNames),
    ("countries", countries)])

/-- Source `_format_paper_full` (lines 127–179). -/
def format_paper_full (paper : Json) : Except PyFault Json := do
  let authorships ← pyIter (← pyGet paper "authorships" (.arr []))
  let authors ← exMap format_authorship authorships
  let pl0 ← pyGet paper "primary_location" (.obj [])
  let primary_location := pyOr pl0 (.obj [])
  let src0 ← pyGet primary_location "source" (.obj [])
  let source := pyOr src0 (.obj [])
  let pt0 ← pyGet paper "primary_topic" (.obj [])
  let primary_topic := pyOr pt0 (.obj [])
  let kwSlice ← pySlice (← pyGet paper "keywords" (.arr [])) 8
  let kwList ← pyIter kwSlice
  let keywords ← exMap (fun kw => pyGet kw "display_name" .null) kwList
  let idv ← pyGet paper "id" (.str "")
  let idClean ← pyReplace idv "https://openalex.org/" ""
  let doi ← pyGet paper "doi" .null
  let title ← pyGet paper "title" .null
  let pubDate ← pyGet paper "publication_date" .null
  let pubYear ← pyGet paper "publication_year" .null
  let language ← pyGet paper "language" .null
  let ty ← pyGet paper "type" .null
  let cited ← pyGet paper "cited_by_count" .null
  let fwci ← pyGet paper "fwci" .null
  let cnp ← pyGet paper "citation_normalized_percentile" (.obj [])
  let isTop1 ← pyGet cnp "is_in_top_1_percent" .null
  let journal ← pyGet source "display_name" .null
  let publisher ← pyGet source "host_organization_name" .null
  let biblio1 ← pyGet paper "biblio" (.obj [])
  let volume ← pyGet biblio1 "volume" .null
  let biblio2 ← pyGet paper "biblio" (.obj [])
  let issue ← pyGet biblio2 "issue" .null
  let biblio3 ← pyGet paper "biblio" (.obj [])
  let firstPage ← pyGet biblio3 "first_page" (.str "")
  let biblio4 ← pyGet paper "biblio" (.obj [])
  let lastPage ← pyGet biblio4 "last_page" (.str "")
  let pages := stripDashes (pyStr firstPage ++ "-" ++ pyStr lastPage)
  let oa1 ← pyGet paper "open_access" (.obj [])
  let isOa ← pyGet oa1 "is_oa" .null
  let oa2 ← pyGet paper "open_access" (.obj [])
  let oaStatus ← pyGet oa2 "oa_status" .null
  let pdfUrl ← pyGet primary_location "pdf_url" .null
  let ptName ← pyGet primary_topic "display_name" .null
  let field0 ← pyGet primary_topic "field" (.obj [])
  let fieldName ← pyGet field0 "display_name" .null
  let domain0 ← pyGet primary_topic "domain" (.obj [])
  let domainName ← pyGet domain0 "display_name" .null
  let refCount ← pyGet paper "referenced_works_count" .null
  let invIdx ← pyGet paper "abstract_inverted_index" .null
  let abstract ← reconstruct_abstract invIdx
  .ok (.obj [
    ("id", .str idClean),
    ("doi", doi),
    ("title", title),
    ("publication_date", pubDate),
    ("publication_year", pubYear),
    ("language", language),
    ("type", ty),
    ("cited_by_count", cited),
    ("fwci", fwci),
    ("is_top_1_percent", isTop1),
    ("journal", journal),
    ("publisher", publisher),
    ("volume", volume),
    ("issue", issue),
    ("pages", .str pages),
    ("authors", .arr authors),
    ("is_oa", isOa),
    ("oa_status", oaStatus),
    ("pdf_url", pdfUrl),
    ("primary_topic", ptName),
    ("field", fieldName),
    ("domain", domainName),
    ("keywords", .arr keywords),
    ("referenced_works_count", refCount),
    ("abstract", abstract)])

/-- Source `_format_author` (lines 197–214). -/
def format_author (author : Json) : Except PyFault Json := do
  let idv ← pyGet author "id" (.str "")
  let idClean ← pyReplace idv "https://openalex.org/" ""
  let name ← pyGet author "display_name" .null
  let orcid ← pyGet author "orcid" .null
  let worksCount ← pyGet author "works_count" .null
  let cited ← pyGet author "cited_by_count" .null
  let stats ← pyGet author "summary_stats" (.obj [])
  let hIndex ← pyGet stats "h_index" .null
  let affSlice ← pySlice (← pyGet author "affiliations" (.arr [])) 3
  let affList ← pyIter affSlice
  let affiliations ← exMap (fun inst => pyGet inst "display_name" .null) affList
  let topicSlice ← pySlice (← pyGet author "topics" (.arr [])) 5
  let topicList ← pyIter topicSlice
  let topics ← exMap (fun t => pyGet t "display_name" .null) topicList
  .ok (.obj [
    ("id", .str idClean),
    ("name", name),
    ("orcid", orcid),
    ("works_count", worksCount),
    ("cited_by_count", cited),
    ("h_index", hIndex),
    ("affiliations", .arr affiliations),
    ("topics", .arr topics)])

/-- Source `_format_source` (lines 217–229). -/
def format_source (source : Json) : Except PyFault Json := do
  let idv ← pyGet source "id" (.str "")
  let idClean ← pyReplace idv "https://openalex.org/" ""
  let name ← pyGet source "display_name" .null
  let issn ← pyGet source "issn_l" .null
  let publisher ← pyGet source "host_organization_name" .null
  let ty ← pyGet source "type" .null
  let worksCount ← pyGet source "works_count" .null
  let cited ← pyGet source "cited_by_count" .null
  let isOa ← pyGet source "is_oa" .null
  let homepage ← pyGet source "homepage_url" .null
  .ok (.obj [
    ("id", .str idClean),
    ("name", name),
    ("issn", issn),
    ("publisher", publisher),
    ("type", ty),
    ("works_count", worksCount),
    ("cited_by_count", cited),
    ("is_oa", isOa),
    ("homepage_url", homepage)])

/-- Source `_format_institution` (lines 232–245). -/
def format_institution (inst : Json) : Except PyFault Json := do
  let idv ← pyGet inst "id" (.str "")
  let idClean ← pyReplace idv "https://openalex.org/" ""
  let name ← pyGet inst "display_name" .null
  let ror ← pyGet inst "ror" .null
  let ty ← pyGet inst "type" .null
  let country ← pyGet inst "country_code" .null
  let geo ← pyGet inst "geo" (.obj [])
  let city ← pyGet geo "city" .null
  let worksCount ← pyGet inst "works_count" .null
  let cited ← pyGet inst "cited_by_count" .null
  let homepage ← pyGet inst "homepage_url" .null
  let image ← pyGet inst "image_url" .null
  .ok (.obj [
    ("id", .str idClean),
    ("name", name),
    ("ror", ror),
    ("type", ty),
    ("country", country),
    ("city", city),
    ("works_count", worksCount),
    ("cited_by_count", cited),
    ("homepage_url", homepage),
    ("image_url", image)])

/-- Source `_format_topic` (lines 248–260). -/
def format_topic (topic : Json) : Except PyFault Json := do
  let idv ← pyGet topic "id" (.str "")
  let idClean ← pyReplace idv "https://openalex.org/" ""
  let name ← pyGet topic "display_name" .null
  let description ← pyGet topic "description" .null
  let worksCount ← pyGet topic "works_count" .null
  let cited ← pyGet topic "cited_by_count" .null
  let subfield0 ← pyGet topic "subfield" (.obj [])
  let subfield ← pyGet subfield0 "display_name" .null
  let field0 ← pyGet topic "field" (.obj [])
  let field ← pyGet field0 "display_name" .null
  let domain0 ← pyGet topic "domain" (.obj [])
  let domain ← pyGet domain0 "display_name" .null
  let keywords ← pySlice (← pyGet topic "keywords" (.arr [])) 10
  .ok (.obj [
    ("id", .str idClean),
    ("name", name),
    ("description", description),
    ("works_count", worksCount),
    ("cited_by_count", cited),
    ("subfield", subfield),
    ("field", field),
    ("domain", domain),
    ("keywords", keywords)])

/-- Source `_format_publisher` (lines 263–274). -/
def format_publisher (publisher : Json) : Except PyFault Json := do
  let idv ← pyGet publisher "id" (.str "")
  let idClean ← pyReplace idv "https://openalex.org/" ""
  let name ← pyGet publisher "display_name" .null
  let altTitles ← pyGet publisher "alternate_titles" (.arr [])
  let countryCodes ← pyGet publisher "country_codes" (.arr [])
  let worksCount ← pyGet publisher "works_count" .null
  let cited ← pyGet publisher "cited_by_count" .null
  let sauCond ← pyGet publisher "sources_api_url" .null
  let sourcesCount ←
    if truthy sauCond then do
      let sau ← pyGet publisher "sources_api_url" (.str "")
      let parts ← pySplit sau "per-page="
      pure (Json.str (parts.headD ""))
    else pure Json.null
  let homepage ← pyGet publisher "homepage_url" .null
  .ok (.obj [
    ("id", .str idClean),
    ("name", name),
    ("alternate_titles", altTitles),
    ("country_codes", countryCodes),
    ("works_count", worksCount),
    ("cited_by_count", cited),
    ("sources_count", sourcesCount),
    ("homepage_url", homepage)])

/-- Source `_format_funder` (lines 277–289). -/
def format_funder (funder : Json) : Except PyFault Json := do
  let idv ← pyGet funder "id" (.str "")
  let idClean ← pyReplace idv "https://openalex.org/" ""
  let name ← pyGet funder "display_name" .null
  let altTitles ← pyGet funder "alternate_titles" (.arr [])
  let countryCode ← pyGet funder "country_code" .null
  let description ← pyGet funder "description" .null
  let worksCount ← pyGet funder "works_count" .null
  let cited ← pyGet funder "cited_by_count" .null
  let grants ← pyGet funder "grants_count" .null
  let homepage ← pyGet funder "homepage_url" .null
  .ok (.obj [
    ("id", .str idClean),
    ("name", name),
    ("alternate_titles", altTitles),
    ("country_code", countryCode),
    ("description", description),
    ("works_count", worksCount),
    ("cited_by_count", cited),
    ("grants_count", grants),
    ("homepage_url", homepage)])

/-- Source `_format_geo` (lines 292–300): the `code` field is
`geo.get(\"country_code\") or geo.get(\"id\", \"\").split(\"/\")[-1]`. -/
def format_geo (geo : Json) : Except PyFault Json := do
  let idv ← pyGet geo "id" (.str "")
  let idClean ← pyReplace idv "https://openalex.org/" ""
  let name ← pyGet geo "display_name" .null
  let cc ← pyGet geo "country_code" .null
  let code ←
    if truthy cc then pure cc
    else do
      let idv2 ← pyGet geo "id" (.str "")
      let parts ← pySplit idv2 "/"
      pure (Json.str (parts.getLastD ""))
  let worksCount ← pyGet geo "works_count" .null
  let cited ← pyGet geo "cited_by_count" .null
  .ok (.obj [
    ("id", .str idClean),
    ("name", name),
    ("code", code),
    ("works_count", worksCount),
    ("cited_by_count", cited)])

/-- Python `base.update(extra)` on dicts: existing keys are overwritten in
place, new keys are appended in order. -/
def dictUpdate (base extra : List (String × Json)) : List (String × Json) :=
  base.map (fun kv => (kv.1, (extra.lookup kv.1).getD kv.2)) ++
    extra.filter (fun kv => (base.lookup kv.1).isNone)

/-- Source `_format_entity_brief` (lines 303–350).  The `base` dict with
`id` and `name` is computed before the dispatch, exactly as in the
source. -/
def format_entity_brief (entity : Json) (entity_type : String) : Except PyFault Json := do
  let idv ← pyGet entity "id" (.str "")
  let idClean ← pyReplace idv "https://openalex.org/" ""
  let name ← pyGet entity "display_name" .null
  let base := [("id", Json.str idClean), ("name", name)]
  if entity_type == "works" then
    format_paper_brief entity
  else if entity_type == "authors" then do
    let worksCount ← pyGet entity "works_count" .null
    let cited ← pyGet entity "cited_by_count" .null
    .ok (.obj (dictUpdate base [("works_count", worksCount), ("cited_by_count", cited)]))
  else if entity_type == "sources" then do
    let ty ← pyGet entity "type" .null
    let worksCount ← pyGet entity "works_count" .null
    let publisher ← pyGet entity "host_organization_name" .null
    .ok (.obj (dictUpdate base [("type", ty), ("works_count", worksCount), ("publisher", publisher)]))
  else if entity_type == "institutions" then do
    let ty ← pyGet entity "type" .null
    let country ← pyGet entity "country_code" .null
    let worksCount ← pyGet entity "works_count" .null
    .ok (.obj (dictUpdate base [("type", ty), ("country", country), ("works_count", worksCount)]))
  else if entity_type == "topics" then do
    let worksCount ← pyGet entity "works_count" .null
    let fieldCond ← pyGet entity "field" .null
    let field ←
      if truthy fieldCond then do
        let f ← pyGet entity "field" (.obj [])
        pyGet f "display_name" .null
      else pure Json.null
    .ok (.obj (dictUpdate base [("works_count", worksCount), ("field", field)]))
  else if entity_type == "publishers" then do
    let worksCount ← pyGet entity "works_count" .null
    let countryCodes ← pyGet entity "country_codes" (.arr [])
    .ok (.obj (dictUpdate base [("works_count", worksCount), ("country_codes", countryCodes)]))
  else if entity_type == "funders" then do
    let worksCount ← pyGet entity "works_count" .null
    let countryCode ← pyGet entity "country_code" .null
    .ok (.obj (dictUpdate base [("works_count", worksCount), ("country_code", countryCode)]))
  else if entity_type == "continents" || entity_type == "countries" then do
    let cc ← pyGet entity "country_code" .null
    let code ←
      if truthy cc then pure cc
      else do
        let idv2 ← pyGet entity "id" (.str "")
        let parts ← pySplit idv2 "/"
        pure (Json.str (parts.getLastD ""))
    let worksCount ← pyGet entity "works_count" .null
    .ok (.obj (dictUpdate base [("code", code), ("works_count", worksCount)]))
  else
    .ok (.obj base)

/-- Source `_format_entity_full` (lines 353–372); an unknown type falls
through and the raw entity is returned. -/
def format_entity_full (entity : Json) (entity_type : String) : Except PyFault Json :=
  if entity_type == "works" then format_paper_full entity
  else if entity_type == "authors" then format_author entity
  else if entity_type == "sources" then format_source entity
  else if entity_type == "institutions" then format_institution entity
  else if entity_type == "topics" then format_topic entity
  else if entity_type == "publishers" then format_publisher entity
  else if entity_type == "funders" then format_funder entity
  else if entity_type == "continents" || entity_type == "countries" then format_geo entity
  else .ok entity

/-- Source constant `BASE_URL` (line 62). -/
def BASE_URL : String := "https://api.openalex.org"

/-- Source constant `OPENALEX_EMAIL` (line 66): read once from the
environment at startup with this default; it is fixed configuration, so the
default value stands in for it here. -/
def OPENALEX_EMAIL : String := "openalex-mcp@example.com"

/-- Source constant `DEFAULT_PARAMS` (line 67). -/
def DEFAULT_PARAMS : List (String × Json) := [("mailto", .str OPENALEX_EMAIL)]

/-- Source dict `ENTITY_TYPES` (lines 70–81): plural entity types accepted
by search, mapped to the API collection names. -/
def ENTITY_TYPES : List (String × String) := [
  ("works", "works"),
  ("authors", "authors"),
  ("sources", "sources"),
  ("institutions", "institutions"),
  ("topics", "topics"),
  ("publishers", "publishers"),
  ("funders", "funders"),
  ("continents", "continents"),
  ("countries", "countries")]

/-- Source dict `ENTITY_TYPE_SINGULAR` (lines 84–94): singular entity
types accepted by fetch, mapped to the plural collection names. -/
def ENTITY_TYPE_SINGULAR : List (String × String) := [
  ("work", "works"),
  ("author", "authors"),
  ("source", "sources"),
  ("institution", "institutions"),
  ("topic", "topics"),
  ("publisher", "publishers"),
  ("funder", "funders"),
  ("continent", "continents"),
  ("country", "countries")]

/-- One event the network can produce for one HTTP attempt. -/
inductive NetEvent where
  | resp (status : Nat) (body : Json)
  | connFail
  | timeout
deriving Repr, BEq

/-- The request a call to `_make_request` sends (url plus merged query
parameters). -/
structure HttpCall where
  url : String
  params : List (String × Json)
deriving Repr, BEq

/-- Python `{**a, **b}` dict merge: keys of `a` in order (values
overridden by `b` where present), then the new keys of `b`. -/
def dictMerge (a b : List (String × Json)) : List (String × Json) :=
  a.map (fun kv => (kv.1, (b.lookup kv.1).getD kv.2)) ++
    b.filter (fun kv => (a.lookup kv.1).isNone)

/-- `requests.Response.raise_for_status`: raises `HTTPError` exactly for
status codes 400–599 (modelled from the requests library, which the
source calls). -/
def raise_for_status (status : Nat) : Except PyFault Unit :=
  if 400 ≤ status ∧ status < 600 then .error (.httpError status) else .ok ()

/-- Outcome of one `_make_request` invocation together with the
instrumentation the spec talks about: how many HTTP attempts were made,
how many times the code slept, and the unconsumed remainder of the
network trace. -/
structure GatewayRun where
  result : Except PyFault Json
  call : HttpCall
  attempts : Nat
  sleeps : Nat
  remaining : List NetEvent
deriving Repr

/-- Source `_make_request` (lines 97–103), driven by a trace of network
events: it issues exactly one GET (consuming one event), never sleeps and
never retries; `raise_for_status` turns any 4xx/5xx into a raised
`HTTPError`, and a connection failure or timeout raised by `requests.get`
propagates.  An exhausted trace is treated as a connection failure. -/
def make_request (net : List NetEvent) (endpoint : String)
    (params : List (String × Json)) : GatewayRun :=
  let call : HttpCall :=
    { url := BASE_URL ++ "/" ++ endpoint, params := dictMerge DEFAULT_PARAMS params }
  match net with
  | [] => { result := .error .connectionError, call := call, attempts := 1, sleeps := 0, remaining := [] }
  | ev :: rest =>
    let result : Except PyFault Json :=
      match ev with
      | .resp status body => do
        let _ ← raise_for_status status
        .ok body
      | .connFail => .error .connectionError
      | .timeout => .error .timeoutError
    { result := result, call := call, attempts := 1, sleeps := 0, remaining := rest }

/-- Python truthiness of an `Optional[int]` (`if year_from:`): `None` and
`0` are falsy. -/
def truthyInt (o : Option Int) : Bool := o.getD 0 != 0

/-- Python truthiness of an `Optional[str]`: `None` and `\"\"` are
falsy. -/
def truthyStr (o : Option String) : Bool := o.getD "" != ""

/-- The filter clauses `search_openalex` builds (source lines 452–486),
in insertion order.  `currentYear` stands for `datetime.datetime.now().year`,
passed explicitly. -/
def search_filters (currentYear : Int) (entity_type : String)
    (year_from year_to : Option Int) (open_access : Option Bool)
    (country institution : Option String) : List String :=
  if entity_type == "works" then
    (if truthyInt year_from && truthyInt year_to then
      ["publication_year:" ++ toString (year_from.getD 0) ++ "-" ++ toString (year_to.getD 0)]
    else if truthyInt year_from then
      ["publication_year:" ++ toString (year_from.getD 0) ++ "-" ++ toString currentYear]
    else if truthyInt year_to then
      ["publication_year:1900-" ++ toString (year_to.getD 0)]
    else []) ++
    (if open_access.isSome then
      ["is_oa:" ++ (if open_access.getD false then "true" else "false")]
    else []) ++
    (if truthyStr country then
      ["authorships.countries:" ++ (country.getD "").toUpper]
    else []) ++
    (if truthyStr institution then
      ["authorships.institutions.display_name.search:" ++ institution.getD ""]
    else [])
  else if entity_type == "authors" then
    (if truthyStr country then
      ["affiliations.institution.country_code:" ++ (country.getD "").toUpper]
    else []) ++
    (if truthyStr institution then
      ["affiliations.institution.display_name.search:" ++ institution.getD ""]
    else [])
  else if entity_type == "institutions" then
    (if truthyStr country then
      ["country_code:" ++ (country.getD "").toUpper]
    else [])
  else []

/-- The sort parameter `search_openalex` emits (source lines 491–498):
`None` means no `sort` key is added to the request. -/
def search_sort (sort_by entity_type : String) : Option String :=
  if sort_by == "cited_by_count" then some "cited_by_count:desc"
  else if sort_by == "publication_date" && entity_type == "works" then
    some "publication_date:desc"
  else if sort_by == "works_count" && !(entity_type == "works") then
    some "works_count:desc"
  else none

/-- A message standing in for `str(e)` of a `requests.exceptions.HTTPError`
(modelled from the requests library: the text begins with the status code;
its exact wording is library-defined and nothing here depends on it). -/
def httpErrText : PyFault → String
  | .httpError status => toString status ++ " Error"
  | .connectionError => "Connection Error"
  | .timeoutError => "Timeout"
  | .pyError msg => msg

/-- Error message of `search_openalex` for an unsupported entity type
(source line 442); the key list is rendered as Python renders
`list(ENTITY_TYPES.keys())`. -/
def searchTypeErrMsg (entity_type : String) : String :=
  "不支持的实体类型: " ++ entity_type ++ "。支持的类型: " ++
    pyReprJ (.arr (ENTITY_TYPES.map (fun kv => Json.str kv.1)))

/-- Error message of `fetch_openalex` for an unsupported entity type
(source line 558). -/
def fetchTypeErrMsg (entity_type : String) : String :=
  "不支持的实体类型: " ++ entity_type ++ "。支持的类型: " ++
    pyReprJ (.arr (ENTITY_TYPE_SINGULAR.map (fun kv => Json.str kv.1)))

/-- What one tool invocation did: its returned value (or raised fault),
the HTTP calls it issued in order, and how often it slept. -/
structure ToolRun where
  result : Except PyFault Json
  calls : List HttpCall
  sleeps : Nat
deriving Repr

/-- Key lookup in a returned mapping. -/
def resultLookup (j : Json) (key : String) : Option Json :=
  match j with
  | .obj fields => fields.lookup key
  | _ => none

/-- Source `search_openalex` (lines 387–511), driven by a network trace.
`currentYear` stands for `datetime.datetime.now().year`.  The tool
validates the entity type, builds `search`/`per-page`/`filter`/`sort`
parameters, performs one request, formats the results briefly, and turns
an `HTTPError` into an `\"error\"` mapping; other faults propagate. -/
def search_openalex (net : List NetEvent) (currentYear : Int) (query : String)
    (entity_type : String) (year_from year_to : Option Int)
    (country institution : Option String) (open_access : Option Bool)
    (sort_by : String) (limit : Int) : ToolRun :=
  match ENTITY_TYPES.lookup entity_type with
  | none => { result := .ok (.obj [("error", .str (searchTypeErrMsg entity_type))]),
              calls := [], sleeps := 0 }
  | some endpoint =>
    let params0 : List (String × Json) :=
      [("search", .str query), ("per-page", .num (min limit 50))]
    let filters := search_filters currentYear entity_type year_from year_to
      open_access country institution
    let params1 := if filters.isEmpty then params0
      else params0 ++ [("filter", .str (String.intercalate "," filters))]
    let params2 := match search_sort sort_by entity_type with
      | some s => params1 ++ [("sort", .str s)]
      | none => params1
    let run := make_request net endpoint params2
    match run.result with
    | .ok data =>
      let formatted : Except PyFault Json := do
        let resultsRaw ← pyGet data "results" (.arr [])
        let items ← pyIter resultsRaw
        let results ← exMap (fun item => format_entity_brief item entity_type) items
        let meta ← pyGet data "meta" (.obj [])
        let totalCount ← pyGet meta "count" .null
        .ok (.obj [
          ("total_count", totalCount),
          ("entity_type", .str entity_type),
          ("results", .arr results)])
      { result := formatted, calls := [run.call], sleeps := 0 }
    | .error (.httpError s) =>
      { result := .ok (.obj [("error", .str ("搜索失败: " ++ httpErrText (.httpError s)))]),
        calls := [run.call], sleeps := 0 }
    | .error e => { result := .error e, calls := [run.call], sleeps := 0 }

/-- The characters Python `str.strip()` removes. -/
def isPySpace (c : Char) : Bool :=
  c == ' ' || c == '\t' || c == '\n' || c == '\r' || c == '\x0b' || c == '\x0c'

/-- Python `s.strip()` over a character list: drop whitespace from both
ends. -/
def pyStripChars (l : List Char) : List Char :=
  ((l.dropWhile isPySpace).reverse.dropWhile isPySpace).reverse

/-- Python `s.replace(pat, rep)` over character lists: replace every
non-overlapping occurrence, scanning left to right.  (Used with the
non-empty pattern `https://openalex.org/`.) -/
def replaceAll (pat rep : List Char) : List Char → List Char
  | [] => []
  | c :: cs =>
    if pat.isPrefixOf (c :: cs) then rep ++ replaceAll pat rep (cs.drop (pat.length - 1))
    else c :: replaceAll pat rep cs
termination_by s => s.length
decreasing_by
  · exact Nat.lt_succ_of_le (le_trans (cs.length_drop _ ▸ Nat.sub_le _ _) (le_refl _))
  · simp

/-- Python `pat in s` substring test over character lists. -/
def containsSub (pat : List Char) : List Char → Bool
  | [] => pat.isEmpty
  | c :: cs => pat.isPrefixOf (c :: cs) || containsSub pat cs

/-- `https://openalex.org/` as a character list. -/
def catalogPre : List Char := "https://openalex.org/".toList

/-- `10.` as a character list. -/
def doiNumPre : List Char := "10.".toList

/-- `doi.org` as a character list. -/
def doiHost : List Char := "doi.org".toList

/-- `https://doi.org/` as a character list. -/
def httpsDoiPre : List Char := "https://doi.org/".toList

/-- `doi.org/` as a character list. -/
def doiHostPre : List Char := "doi.org/".toList

/-- `https://` as a character list. -/
def httpsPre : List Char := "https://".toList

/-- `0000-` as a character list. -/
def orcidNumPre : List Char := "0000-".toList

/-- `https://orcid.org/` as a character list. -/
def orcidUrlPre : List Char := "https://orcid.org/".toList

/-- The identifier-normalization block of `fetch_openalex` (source lines
563–579), over character lists: strip whitespace, drop the OpenAlex URL
prefix, canonicalize a DOI to `https://doi.org/...` for works, and a bare
ORCID to `https://orcid.org/...` for authors. -/
def normalize_id_chars (entity_type : String) (identifier : List Char) : List Char :=
  let id1 := pyStripChars identifier
  let id2 := if catalogPre.isPrefixOf id1 then replaceAll catalogPre [] id1 else id1
  let id3 :=
    if entity_type == "work" && (doiNumPre.isPrefixOf id2 || containsSub doiHost id2) then
      if httpsDoiPre.isPrefixOf id2 then id2
      else if doiHostPre.isPrefixOf id2 then httpsPre ++ id2
      else httpsDoiPre ++ id2
    else id2
  if entity_type == "author" && orcidNumPre.isPrefixOf id3 then orcidUrlPre ++ id3
  else id3

/-- The identifier normalization of `fetch_openalex` on strings. -/
def normalize_identifier (entity_type identifier : String) : String :=
  String.mk (normalize_id_chars entity_type identifier.toList)

/-- Python `result[key] = v` dict item assignment. -/
def pySetItem (j : Json) (key : String) (v : Json) : Except PyFault Json :=
  match j with
  | .obj fields =>
    if (fields.lookup key).isSome then
      .ok (.obj (fields.map (fun kv => if kv.1 == key then (kv.1, v) else kv)))
    else .ok (.obj (fields ++ [(key, v)]))
  | _ => .error (.pyError "TypeError: item assignment")

/-- One entry of the author-related `top_works` list (source lines
596–604). -/
def author_topwork (p : Json) : Except PyFault Json := do
  let idv ← pyGet p "id" (.str "")
  let idClean ← pyReplace idv "https://openalex.org/" ""
  let title ← pyGet p "title" .null
  let doi ← pyGet p "doi" .null
  let cited ← pyGet p "cited_by_count" .null
  let plCond ← pyGet p "primary_location" .null
  let journal ←
    if truthy plCond then do
      let pl0 ← pyGet p "primary_location" (.obj [])
      let pl := pyOr pl0 (.obj [])
      let src ← pyGet pl "source" (.obj [])
      pyGet src "display_name" .null
    else pure Json.null
  .ok (.obj [
    ("id", .str idClean), ("title", title), ("doi", doi),
    ("cited_by_count", cited), ("journal", journal)])

/-- One entry of the source-related `top_works` list (source lines
613–621). -/
def source_topwork (p : Json) : Except PyFault Json := do
  let idv ← pyGet p "id" (.str "")
  let idClean ← pyReplace idv "https://openalex.org/" ""
  let title ← pyGet p "title" .null
  let cited ← pyGet p "cited_by_count" .null
  let authCond ← pyGet p "authorships" .null
  let firstAuthor ←
    if truthy authCond then do
      let a ← pyGet p "authorships" (.arr [.obj []])
      let a0 ← pyIndex0 a
      let author ← pyGet a0 "author" (.obj [])
      pyGet author "display_name" .null
    else pure Json.null
  .ok (.obj [
    ("id", .str idClean), ("title", title),
    ("cited_by_count", cited), ("first_author", firstAuthor)])

/-- One entry of the institution-related `top_authors` list (source lines
629–637). -/
def institution_topauthor (a : Json) : Except PyFault Json := do
  let idv ← pyGet a "id" (.str "")
  let idClean ← pyReplace idv "https://openalex.org/" ""
  let name ← pyGet a "display_name" .null
  let worksCount ← pyGet a "works_count" .null
  let cited ← pyGet a "cited_by_count" .null
  .ok (.obj [
    ("id", .str idClean), ("name", name),
    ("works_count", worksCount), ("cited_by_count", cited)])

/-- One entry of the topic-related `top_works` list (source lines
646–653). -/
def topic_topwork (p : Json) : Except PyFault Json := do
  let idv ← pyGet p "id" (.str "")
  let idClean ← pyReplace idv "https://openalex.org/" ""
  let title ← pyGet p "title" .null
  let cited ← pyGet p "cited_by_count" .null
  .ok (.obj [("id", .str idClean), ("title", title), ("cited_by_count", cited)])

/-- The secondary related-entities request of `fetch_openalex`: read
`data[\"id\"]` (a `KeyError` propagates before any request), perform one
request filtered on it, build the related list and store it under `key`
in the result.  An `HTTPError` is left in the `Except` for the tool-level
handler. -/
def runRelated (net : List NetEvent) (data : Json) (endpoint : String)
    (filterField : String) (extraParams : List (String × Json))
    (builder : Json → Except PyFault Json) (key : String) (result : Json) :
    Option HttpCall × List NetEvent × Except PyFault Json :=
  match pySubscr data "id" with
  | .error e => (none, net, .error e)
  | .ok idv =>
    let run2 := make_request net endpoint
      ([("filter", .str (filterField ++ pyStr idv)),
        ("sort", .str "cited_by_count:desc"),
        ("per-page", .num 5)] ++ extraParams)
    match run2.result with
    | .error e => (some run2.call, run2.remaining, .error e)
    | .ok wd =>
      let upd : Except PyFault Json := do
        let raw ← pyGet wd "results" (.arr [])
        let items ← pyIter raw
        let built ← exMap builder items
        pySetItem result key (.arr built)
      (some run2.call, run2.remaining, upd)

/-- Source `fetch_openalex` (lines 519–658), driven by a network trace:
validate the entity type, normalize the identifier, fetch and format the
entity, optionally fetch related entities, and turn an `HTTPError` into an
`\"error\"` mapping; other faults propagate. -/
def fetch_openalex (net : List NetEvent) (identifier : String)
    (entity_type : String) (include_related : Bool) : ToolRun :=
  match ENTITY_TYPE_SINGULAR.lookup entity_type with
  | none => { result := .ok (.obj [("error", .str (fetchTypeErrMsg entity_type))]),
              calls := [], sleeps := 0 }
  | some endpoint_type =>
    let id_clean := normalize_identifier entity_type identifier
    let run1 := make_request net (endpoint_type ++ "/" ++ id_clean) []
    match run1.result with
    | .error (.httpError s) =>
      { result := .ok (.obj [("error", .str ("获取失败: " ++ httpErrText (.httpError s)))]),
        calls := [run1.call], sleeps := 0 }
    | .error e => { result := .error e, calls := [run1.call], sleeps := 0 }
    | .ok data =>
      match format_entity_full data endpoint_type with
      | .error e => { result := .error e, calls := [run1.call], sleeps := 0 }
      | .ok result0 =>
        let related : Option (Option HttpCall × List NetEvent × Except PyFault Json) :=
          if include_related then
            if entity_type == "author" then
              some (runRelated run1.remaining data "works" "author.id:"
                [("select", .str "id,title,doi,publication_date,cited_by_count,primary_location")]
                author_topwork "top_works" result0)
            else if entity_type == "source" then
              some (runRelated run1.remaining data "works" "primary_location.source.id:"
                [("select", .str "id,title,doi,publication_date,cited_by_count,authorships")]
                source_topwork "top_works" result0)
            else if entity_type == "institution" then
              some (runRelated run1.remaining data "authors" "affiliations.institution.id:"
                [] institution_topauthor "top_authors" result0)
            else if entity_type == "topic" then
              some (runRelated run1.remaining data "works" "primary_topic.id:"
                [("select", .str "id,title,doi,cited_by_count")]
                topic_topwork "top_works" result0)
            else none
          else none
        match related with
        | none => { result := .ok result0, calls := [run1.call], sleeps := 0 }
        | some (c2, _, outcome) =>
          let calls := [run1.call] ++ (match c2 with | some c => [c] | none => [])
          match outcome with
          | .ok result1 => { result := .ok result1, calls := calls, sleeps := 0 }
          | .error (.httpError s) =>
            { result := .ok (.obj [("error", .str ("获取失败: " ++ httpErrText (.httpError s)))]),
              calls := calls, sleeps := 0 }
          | .error e => { result := .error e, calls := calls, sleeps := 0 }

/-- Modelled from the spec: the `batch_fetch_openalex` tool is not among
the sources (only `test_server.py` exercises it).  Per the spec it accepts
up to 50 identifiers, rejects an empty or oversized list with an immediate
local validation fault before any network call, chooses a DOI-based or
ID-based filter field depending on whether the identifiers look like DOIs,
and joins all identifiers into one pipe-separated OR-filter clause so that
exactly one network call is made.  The value returned on success is the
pair (number of network calls, filter clause sent). -/
def batch_fetch_openalex (identifiers : List String) : Except String (Nat × String) :=
  if identifiers.length = 0 || 50 < identifiers.length then
    .error "ToolError: the identifiers list must contain between 1 and 50 items"
  else
    let field := if (identifiers.headD "").startsWith "10." then "doi" else "openalex_id"
    .ok (1, field ++ ":" ++ String.intercalate "|" identifiers)

/-- All (position, word) pairs of an abstract inverted index, in iteration
order — the spec-side reading of the AbstractIndex data model. -/
def spec_pairs (l : List (String × List Int)) : List (Int × String) :=
  l.flatMap (fun wp => wp.2.map (fun p => (p, wp.1)))

/-- The spec-side reconstruction: sort all (position, word) pairs by
position ascending, ties keeping original iteration order, and join the
words by single spaces. -/
def spec_reconstruct (l : List (String × List Int)) : String :=
  String.intercalate " " ((sortByPos (spec_pairs l)).map Prod.snd)

/-- A word→positions mapping encoded as the JSON object the code
receives. -/
def encodeIndex (l : List (String × List Int)) : Json :=
  .obj (l.map (fun wp => (wp.1, Json.arr (wp.2.map Json.num))))

/-- Uppercase ASCII letter. -/
def isUpperCh (c : Char) : Bool := 65 ≤ c.toNat && c.toNat ≤ 90

/-- ASCII digit. -/
def isDigitCh (c : Char) : Bool := 48 ≤ c.toNat && c.toNat ≤ 57

/-- No character of the list is stripped by Python `strip()`. -/
def noSpaceChars (l : List Char) : Prop := ∀ c ∈ l, isPySpace c = false

/-- The supported identifier forms of the spec, paired with their matching
entity type: bare catalog ID (an uppercase letter followed by digits, any
entity type), catalog URL, bare DOI, DOI-resolver URL (with or without the
scheme) for works, bare ORCID and ORCID URL for authors. -/
inductive SupportedIdForm : String → List Char → Prop
  | bareId (entity_type : String) (c : Char) (rest : List Char) :
      isUpperCh c = true → (∀ d ∈ rest, isDigitCh d = true) →
      SupportedIdForm entity_type (c :: rest)
  | catalogUrl (entity_type : String) (c : Char) (rest : List Char) :
      isUpperCh c = true → (∀ d ∈ rest, isDigitCh d = true) →
      SupportedIdForm entity_type (catalogPre ++ c :: rest)
  | bareDoi (rest : List Char) : noSpaceChars rest →
      SupportedIdForm "work" ('1' :: '0' :: '.' :: rest)
  | doiUrl (rest : List Char) : noSpaceChars rest →
      SupportedIdForm "work" (httpsDoiPre ++ '1' :: '0' :: '.' :: rest)
  | doiHostUrl (rest : List Char) : noSpaceChars rest →
      SupportedIdForm "work" (doiHostPre ++ '1' :: '0' :: '.' :: rest)
  | bareOrcid (rest : List Char) : noSpaceChars rest →
      SupportedIdForm "author" ('0' :: '0' :: '0' :: '0' :: '-' :: rest)
  | orcidUrl (rest : List Char) : noSpaceChars rest →
      SupportedIdForm "author" (orcidUrlPre ++ '0' :: '0' :: '0' :: '0' :: '-' :: rest)

/-- Every record key `_format_paper_brief` and `_format_paper_full`
consult on the top level of a work record. -/
def consultedKeys : List String :=
  ["id", "title", "doi", "publication_date", "publication_year", "language",
   "type", "cited_by_count", "fwci", "citation_normalized_percentile",
   "biblio", "authorships", "primary_location", "primary_topic",
   "open_access", "keywords", "referenced_works_count",
   "abstract_inverted_index"]

/-! ### Supporting lemmas -/

theorem pyGet_obj (kvs : List (String × Json)) (key : String) (dflt : Json) :
    pyGet (Json.obj kvs) key dflt = .ok ((kvs.lookup key).getD dflt) := rfl

theorem ok_bind (a : α) (f : α → Except PyFault β) :
    (Except.ok a : Except PyFault α) >>= f = f a := rfl

theorem error_bind (e : PyFault) (f : α → Except PyFault β) :
    (Except.error e : Except PyFault α) >>= f = .error e := rfl

theorem exMap_posInt_nums (ps : List Int) :
    exMap posInt (ps.map Json.num) = .ok ps := by
  induction ps with
  | nil => rfl
  | cons p ps ih => simp [exMap, posInt, ih, ok_bind]

theorem collectPairs_encode (l : List (String × List Int)) :
    collectPairs (l.map (fun wp => (wp.1, Json.arr (wp.2.map Json.num)))) =
      .ok (spec_pairs l) := by
  induction l with
  | nil => simp [collectPairs, spec_pairs]
  | cons hd tl ih =>
    simp [collectPairs, spec_pairs, pyIter, exMap_posInt_nums, ih, ok_bind]

theorem insPos_perm (x : Int × String) (l : List (Int × String)) :
    (insPos x l).Perm (x :: l) := by
  induction l with
  | nil => rfl
  | cons y ys ih =>
    by_cases hy : y.1 < x.1
    · simp only [insPos, if_pos hy]
      exact (ih.cons y).trans (List.Perm.swap x y ys)
    · simp [insPos, hy]

theorem sortByPos_perm (l : List (Int × String)) : (sortByPos l).Perm l := by
  induction l with
  | nil => rfl
  | cons x xs ih => exact (insPos_perm x (sortByPos xs)).trans (ih.cons x)

theorem insPos_pairwise (x : Int × String) (l : List (Int × String))
    (h : l.Pairwise (fun a b => a.1 ≤ b.1)) :
    (insPos x l).Pairwise (fun a b => a.1 ≤ b.1) := by
  induction l with
  | nil => simp [insPos]
  | cons y ys ih =>
    rcases List.pairwise_cons.mp h with ⟨hy, hys⟩
    by_cases hlt : y.1 < x.1
    · simp only [insPos, if_pos hlt]
      refine List.pairwise_cons.mpr ⟨?_, ih hys⟩
      intro z hz
      rcases List.mem_cons.mp ((insPos_perm x ys).mem_iff.mp hz) with rfl | hz'
      · exact le_of_lt hlt
      · exact hy z hz'
    · simp only [insPos, if_neg hlt]
      refine List.pairwise_cons.mpr ⟨?_, h⟩
      intro z hz
      rcases List.mem_cons.mp hz with rfl | hz'
      · exact le_of_not_lt hlt
      · exact le_trans (le_of_not_lt hlt) (hy z hz')

theorem sortByPos_sorted (l : List (Int × String)) :
    (sortByPos l).Pairwise (fun a b => a.1 ≤ b.1) := by
  induction l with
  | nil => simp [sortByPos]
  | cons x xs ih => exact insPos_pairwise x _ ih

theorem insPos_filter (x : Int × String) (l : List (Int × String)) (k : Int) :
    (insPos x l).filter (fun p => p.1 == k) =
      (if x.1 == k then [x] else []) ++ l.filter (fun p => p.1 == k) := by
  induction l with
  | nil => by_cases hxk : x.1 = k <;> simp [insPos, hxk]
  | cons y ys ih =>
    by_cases hlt : y.1 < x.1
    · simp only [insPos, if_pos hlt, List.filter_cons]
      by_cases hyk : (y.1 == k) = true
      · have hxk : (x.1 == k) = false := by
          have hy : y.1 = k := beq_iff_eq.mp hyk
          refine beq_eq_false_iff_ne.mpr (fun hx => ?_)
          omega
        simp [hyk, ih, hxk]
      · simp [hyk, ih]
    · simp only [insPos, if_neg hlt, List.filter_cons]
      by_cases hxk : (x.1 == k) = true
      · simp [hxk, List.filter_cons]
      · simp [hxk, List.filter_cons]

theorem sortByPos_stable (l : List (Int × String)) (k : Int) :
    (sortByPos l).filter (fun p => p.1 == k) = l.filter (fun p => p.1 == k) := by
  induction l with
  | nil => rfl
  | cons x xs ih =>
    by_cases hxk : (x.1 == k) = true
    · simp [sortByPos, insPos_filter, List.filter_cons, hxk, ih]
    · simp [sortByPos, insPos_filter, List.filter_cons, hxk, ih]

/-! ### Claims -/

/-- C1: for every non-empty word→positions mapping, the reconstructed
abstract equals the words of all (position, word) pairs sorted by
position ascending — ties keeping original iteration order (the sort is
stable: `sortByPos_sorted`, `sortByPos_perm`, `sortByPos_stable`) — joined
by single spaces; the function is a pure Lean function, hence
deterministic. -/
theorem abstract_reconstruction_matches_spec (l : List (String × List Int))
    (h : l ≠ []) :
    reconstruct_abstract (encodeIndex l) = .ok (.str (spec_reconstruct l)) := by
  have ht : truthy (encodeIndex l) = true := by
    cases l with
    | nil => exact absurd rfl h
    | cons hd tl => simp [encodeIndex, truthy]
  simp only [reconstruct_abstract, encodeIndex]
  rw [if_neg (by simp only [encodeIndex] at ht; simp [ht])]
  simp [collectPairs_encode, spec_reconstruct, ok_bind]

/-- Witness for C1: the index from the spec,
`the → [0, 3], cat → [1]`, reconstructs to exactly `"the cat the"`. -/
theorem abstract_reconstruction_matches_spec_witness :
    ([("the", [0, 3]), ("cat", [1])] : List (String × List Int)) ≠ [] ∧
    reconstruct_abstract (encodeIndex [("the", [0, 3]), ("cat", [1])]) =
      .ok (.str "the cat the") := by
  refine ⟨by simp, ?_⟩
  rw [abstract_reconstruction_matches_spec [("the", [0, 3]), ("cat", [1])] (by simp)]
  rfl

/-- C2 counterexample: the claim fails on the code in two ways.  A work
record whose `open_access` field is present but null makes
`_format_paper_brief` raise an `AttributeError` (the code calls `.get` on
the null), so formatting does fault on a null nested field; and a record
with no `authorships` key yields `first_author = "Unknown"` — a sentinel
string, not null. -/
theorem format_null_field_faults :
    format_paper_brief (Json.obj [("open_access", Json.null)]) =
      .error (.pyError "AttributeError: get") ∧
    resultLookup ((format_paper_brief (Json.obj [])).toOption.getD .null)
      "first_author" = some (.str "Unknown") ∧
    resultLookup ((format_paper_brief (Json.obj [])).toOption.getD .null)
      "author_count" = some (.num 0) ∧
    Json.str "Unknown" ≠ Json.null :=
  ⟨by rfl, by rfl, by rfl, by simp⟩

set_option maxHeartbeats 2000000 in
/-- C2 (amended): brief and full formatting never fault on *missing*
nested fields — on any work record lacking every consulted key both
succeed, with `first_author = "Unknown"` (a sentinel string, not null) and
`author_count = 0`; a *null* value in a consulted nested field (e.g.
`open_access: null`) does fault. -/
theorem format_missing_fields_safe (kvs : List (String × Json))
    (h : ∀ key ∈ consultedKeys, kvs.lookup key = none) :
    format_paper_brief (Json.obj kvs) = format_paper_brief (Json.obj []) ∧
    format_paper_full (Json.obj kvs) = format_paper_full (Json.obj []) ∧
    (∃ b, format_paper_brief (Json.obj kvs) = .ok b ∧
      resultLookup b "first_author" = some (.str "Unknown") ∧
      resultLookup b "author_count" = some (.num 0)) ∧
    (format_paper_full (Json.obj kvs)).isOk = true := by
  have h1 := h "authorships" (by simp [consultedKeys])
  have h2 := h "primary_location" (by simp [consultedKeys])
  have h3 := h "id" (by simp [consultedKeys])
  have h4 := h "title" (by simp [consultedKeys])
  have h5 := h "doi" (by simp [consultedKeys])
  have h6 := h "publication_date" (by simp [consultedKeys])
  have h7 := h "cited_by_count" (by simp [consultedKeys])
  have h8 := h "open_access" (by simp [consultedKeys])
  have h9 := h "publication_year" (by simp [consultedKeys])
  have h10 := h "language" (by simp [consultedKeys])
  have h11 := h "type" (by simp [consultedKeys])
  have h12 := h "fwci" (by simp [consultedKeys])
  have h13 := h "citation_normalized_percentile" (by simp [consultedKeys])
  have h14 := h "biblio" (by simp [consultedKeys])
  have h15 := h "primary_topic" (by simp [consultedKeys])
  have h16 := h "keywords" (by simp [consultedKeys])
  have h17 := h "referenced_works_count" (by simp [consultedKeys])
  have h18 := h "abstract_inverted_index" (by simp [consultedKeys])
  have hb : format_paper_brief (Json.obj kvs) = format_paper_brief (Json.obj []) := by
    simp [format_paper_brief, pyGet, h1, h2, h3, h4, h5, h6, h7, h8]
  have hf : format_paper_full (Json.obj kvs) = format_paper_full (Json.obj []) := by
    simp [format_paper_full, pyGet, h1, h2, h3, h4, h5, h6, h7, h8, h9, h10,
      h11, h12, h13, h14, h15, h16, h17, h18]
  refine ⟨hb, hf, ?_, by rw [hf]; rfl⟩
  exact ⟨(format_paper_brief (Json.obj [])).toOption.getD .null,
    hb.trans (by rfl), by rfl, by rfl⟩

/-- Witness for C2: a record carrying only an unrelated key satisfies the
missing-keys hypothesis and formats safely. -/
theorem format_missing_fields_safe_witness :
    (∀ key ∈ consultedKeys, ([("foo", Json.str "bar")] : List (String × Json)).lookup key = none) ∧
    format_paper_brief (Json.obj [("foo", Json.str "bar")]) = format_paper_brief (Json.obj []) := by
  have hmiss : ∀ key ∈ consultedKeys, ([("foo", Json.str "bar")] : List (String × Json)).lookup key = none := by
    intro key hk
    simp only [consultedKeys, List.mem_cons, List.not_mem_nil, or_false] at hk
    rcases hk with rfl | rfl | rfl | rfl | rfl | rfl | rfl | rfl | rfl | rfl | rfl | rfl | rfl | rfl | rfl | rfl | rfl | rfl <;> rfl
  exact ⟨hmiss, (format_missing_fields_safe _ hmiss).1⟩

/-- C8 counterexample: the claim lists `keyword` among the supported
entity types, but neither the plural search table nor the singular fetch
table knows it. -/
theorem entity_types_keyword_missing :
    ENTITY_TYPES.lookup "keywords" = none ∧
    ENTITY_TYPE_SINGULAR.lookup "keyword" = none := ⟨rfl, rfl⟩

/-- C8 (amended): the set of supported entity types is exactly
work, author, source, institution, topic, publisher, funder, continent,
country — nine types, without `keyword`; each maps to exactly one
collection name (the key lists have no duplicates), and for every type
the singular and the plural spelling map to the same collection. -/
theorem entity_types_exact_mapping :
    ENTITY_TYPES.map Prod.fst =
      ["works", "authors", "sources", "institutions", "topics",
       "publishers", "funders", "continents", "countries"] ∧
    ENTITY_TYPE_SINGULAR.map Prod.fst =
      ["work", "author", "source", "institution", "topic",
       "publisher", "funder", "continent", "country"] ∧
    (ENTITY_TYPES.map Prod.fst).Nodup ∧
    (ENTITY_TYPE_SINGULAR.map Prod.fst).Nodup ∧
    ENTITY_TYPE_SINGULAR.lookup "work" = ENTITY_TYPES.lookup "works" ∧
    ENTITY_TYPE_SINGULAR.lookup "author" = ENTITY_TYPES.lookup "authors" ∧
    ENTITY_TYPE_SINGULAR.lookup "source" = ENTITY_TYPES.lookup "sources" ∧
    ENTITY_TYPE_SINGULAR.lookup "institution" = ENTITY_TYPES.lookup "institutions" ∧
    ENTITY_TYPE_SINGULAR.lookup "topic" = ENTITY_TYPES.lookup "topics" ∧
    ENTITY_TYPE_SINGULAR.lookup "publisher" = ENTITY_TYPES.lookup "publishers" ∧
    ENTITY_TYPE_SINGULAR.lookup "funder" = ENTITY_TYPES.lookup "funders" ∧
    ENTITY_TYPE_SINGULAR.lookup "continent" = ENTITY_TYPES.lookup "continents" ∧
    ENTITY_TYPE_SINGULAR.lookup "country" = ENTITY_TYPES.lookup "countries" ∧
    ENTITY_TYPES.lookup "keywords" = none ∧
    ENTITY_TYPE_SINGULAR.lookup "keyword" = none := by
  refine ⟨rfl, rfl, by decide, by decide, ?_, ?_, ?_, ?_, ?_, ?_, ?_, ?_, ?_, rfl, rfl⟩ <;> rfl

/-- C7 counterexample: the convenience sort key `relevance` maps to no
`field:desc` sort string at all — the code emits no sort parameter for it
(relevance is the API default), refuting "each convenience sort key maps
to a native field:desc sort string". -/
theorem sort_relevance_counterexample :
    search_sort "relevance" "works" = none ∧
    search_sort "relevance" "authors" = none ∧
    (search_openalex [.resp 200 (.obj [])] 2025 "q" "works" none none none
      none none "relevance" 10).calls.map (fun c => c.params.lookup "sort") = [none] := by
  refine ⟨rfl, rfl, by rfl⟩

/-- C7 (amended): the sort keys `cited_by_count`, `publication_date` and
`works_count` map to native `field:desc` strings — `cited_by_count` for
every entity type, `publication_date` only for works, `works_count` only
for non-works; a key invalid for the entity type is silently dropped and
the outgoing request then carries no `sort` parameter; `relevance` always
emits no sort parameter (the server-side default). -/
theorem sort_key_table (entity_type : String) :
    search_sort "cited_by_count" entity_type = some "cited_by_count:desc" ∧
    search_sort "publication_date" entity_type =
      (if entity_type == "works" then some "publication_date:desc" else none) ∧
    search_sort "works_count" entity_type =
      (if entity_type == "works" then none else some "works_count:desc") ∧
    search_sort "relevance" entity_type = none ∧
    (search_openalex [.resp 200 (.obj [])] 2025 "q" "authors" none none none
      none none "publication_date" 10).calls.map
        (fun c => c.params.lookup "sort") = [none] := by
  refine ⟨rfl, ?_, ?_, ?_, by rfl⟩
  · by_cases hw : entity_type == "works" <;> simp [search_sort, hw]
  · by_cases hw : entity_type == "works" <;> simp [search_sort, hw]
  · rfl

/-- Witness for C7: the table evaluated at entity type `authors`. -/
theorem sort_key_table_witness :
    search_sort "cited_by_count" "authors" = some "cited_by_count:desc" ∧
    search_sort "publication_date" "authors" = none := by
  refine ⟨(sort_key_table "authors").1, ?_⟩
  have h := (sort_key_table "authors").2.1
  simpa using h

/-- C5 counterexample: the claim fails in two ways.  Python truthiness
makes a zero bound behave as absent: with `year_from = 0` and
`year_to = 2024` both given, the emitted clause is
`publication_year:1900-2024`, not `publication_year:0-2024`.  And with
only `year_from = 2020` given the clause is bounded above by the current
year — `publication_year:2020-2025` under current year 2025 but
`publication_year:2020-2030` under 2030 — so it is not an open-ended
greater-or-equal clause. -/
theorem year_filter_counterexample :
    search_filters 2025 "works" (some 0) (some 2024) none none none =
      ["publication_year:1900-2024"] ∧
    search_filters 2025 "works" (some 0) (some 2024) none none none ≠
      ["publication_year:0-2024"] ∧
    search_filters 2025 "works" (some 2020) none none none none =
      ["publication_year:2020-2025"] ∧
    search_filters 2030 "works" (some 2020) none none none none =
      ["publication_year:2020-2030"] := by
  refine ⟨by rfl, by decide, by rfl, by rfl⟩

/-- C5 (amended): for entity type works, with both bounds given and
truthy (non-zero) the clause is `publication_year:from-to`; with only a
truthy lower bound it is `publication_year:from-<currentYear>` (bounded
above by the current year, not open-ended); with only a truthy upper
bound it is `publication_year:1900-to` (bounded below by 1900, not a bare
less-or-equal); a zero bound counts as absent; and for every non-works
entity type the year arguments never affect the emitted filters. -/
theorem year_filter_table (currentYear : Int) (year_from year_to : Option Int)
    (entity_type : String) :
    (year_from.getD 0 ≠ 0 → year_to.getD 0 ≠ 0 →
      search_filters currentYear "works" year_from year_to none none none =
        ["publication_year:" ++ toString (year_from.getD 0) ++ "-" ++
          toString (year_to.getD 0)]) ∧
    (year_from.getD 0 ≠ 0 → year_to.getD 0 = 0 →
      search_filters currentYear "works" year_from year_to none none none =
        ["publication_year:" ++ toString (year_from.getD 0) ++ "-" ++
          toString currentYear]) ∧
    (year_from.getD 0 = 0 → year_to.getD 0 ≠ 0 →
      search_filters currentYear "works" year_from year_to none none none =
        ["publication_year:1900-" ++ toString (year_to.getD 0)]) ∧
    (year_from.getD 0 = 0 → year_to.getD 0 = 0 →
      search_filters currentYear "works" year_from year_to none none none = []) ∧
    (entity_type ≠ "works" →
      ∀ (open_access : Option Bool) (country institution : Option String),
        search_filters currentYear entity_type year_from year_to
          open_access country institution =
        search_filters currentYear entity_type none none
          open_access country institution) := by
  refine ⟨?_, ?_, ?_, ?_, ?_⟩
  · intro hf ht; simp [search_filters, truthyInt, truthyStr, hf, ht]
  · intro hf ht; simp [search_filters, truthyInt, truthyStr, hf, ht]
  · intro hf ht; simp [search_filters, truthyInt, truthyStr, hf, ht]
  · intro hf ht; simp [search_filters, truthyInt, truthyStr, hf, ht]
  · intro hw open_access country institution
    have hw' : (entity_type == "works") = false := beq_eq_false_iff_ne.mpr hw
    simp [search_filters, hw']

/-- Witness for C5: the table at concrete inputs, including the spec
example year_from=2020, year_to=2024. -/
theorem year_filter_table_witness :
    search_filters 2025 "works" (some 2020) (some 2024) none none none =
      ["publication_year:2020-2024"] ∧
    search_filters 2025 "authors" (some 2020) (some 2024) none (some "cn") none =
      search_filters 2025 "authors" none none none (some "cn") none := by
  constructor
  · have h := (year_filter_table 2025 (some 2020) (some 2024) "authors").1
      (by decide) (by decide)
    simpa using h
  · exact (year_filter_table 2025 (some 2020) (some 2024) "authors").2.2.2.2
      (by decide) none (some "cn") none

/-- C3 counterexample: on the response sequence 429, 429, 200 the gateway
performs no sleep and no re-attempt — it consumes only the first response,
raises `HTTPError 429`, and never reaches the 200; so the claimed
"2 sleeps then a successful result" is false. -/
theorem gateway_429_sequence_no_retry :
    (make_request [.resp 429 (.obj []), .resp 429 (.obj []),
        .resp 200 (.obj [("ok", .bool true)])] "works" []).sleeps = 0 ∧
    (make_request [.resp 429 (.obj []), .resp 429 (.obj []),
        .resp 200 (.obj [("ok", .bool true)])] "works" []).attempts = 1 ∧
    (make_request [.resp 429 (.obj []), .resp 429 (.obj []),
        .resp 200 (.obj [("ok", .bool true)])] "works" []).result =
      .error (.httpError 429) ∧
    ¬((make_request [.resp 429 (.obj []), .resp 429 (.obj []),
        .resp 200 (.obj [("ok", .bool true)])] "works" []).sleeps = 2 ∧
      (make_request [.resp 429 (.obj []), .resp 429 (.obj []),
        .resp 200 (.obj [("ok", .bool true)])] "works" []).result =
        .ok (.obj [("ok", .bool true)])) := by
  refine ⟨rfl, rfl, by rfl, ?_⟩
  rintro ⟨h, -⟩
  simp [make_request] at h

/-- C3 (amended): the gateway performs no retries and no sleeps — each
logical request issues exactly one HTTP attempt; any 4xx/5xx status
(429 and 500 alike) raises an `HTTPError` on that first attempt, which
the search tool catches and converts to a mapping carrying an `error`
key; a status below 400 succeeds immediately; a connection failure
propagates out of the tool as a raised fault. -/
theorem gateway_single_attempt_no_sleep (s : Nat) (body : Json)
    (rest : List NetEvent) (endpoint : String) (params : List (String × Json))
    (h4 : 400 ≤ s) (h6 : s < 600) :
    (make_request (.resp s body :: rest) endpoint params).attempts = 1 ∧
    (make_request (.resp s body :: rest) endpoint params).sleeps = 0 ∧
    (make_request (.resp s body :: rest) endpoint params).result =
      .error (.httpError s) ∧
    (search_openalex (.resp s body :: rest) 2025 "q" "works" none none none
        none none "cited_by_count" 10).result =
      .ok (.obj [("error", .str ("搜索失败: " ++ httpErrText (.httpError s)))]) ∧
    (search_openalex (.resp s body :: rest) 2025 "q" "works" none none none
        none none "cited_by_count" 10).sleeps = 0 ∧
    (search_openalex (.resp s body :: rest) 2025 "q" "works" none none none
        none none "cited_by_count" 10).calls.length = 1 ∧
    (∀ (s2 : Nat) (body2 : Json), s2 < 400 →
      (make_request (.resp s2 body2 :: rest) endpoint params).result = .ok body2) ∧
    (search_openalex (.connFail :: rest) 2025 "q" "works" none none none
        none none "cited_by_count" 10).result = .error .connectionError := by
  have hrs : raise_for_status s = .error (.httpError s) := by
    rw [raise_for_status, if_pos ⟨h4, h6⟩]
  have hl : ENTITY_TYPES.lookup "works" = some "works" := rfl
  refine ⟨rfl, rfl, ?_, ?_, ?_, ?_, ?_, ?_⟩
  · simp [make_request, hrs, error_bind]
  · simp [search_openalex, make_request, hrs, error_bind, hl]
  · simp [search_openalex, make_request, hrs, error_bind, hl]
  · simp [search_openalex, make_request, hrs, error_bind, hl]
  · intro s2 body2 hlt
    have hno : ¬(400 ≤ s2 ∧ s2 < 600) := by omega
    simp [make_request, raise_for_status, hno, ok_bind]
  · rfl

/-- Witness for C3: the spec sequence 500, 500, 500 — the first 500
raises after one attempt and zero sleeps, and the tool returns an
`error` mapping, a structured value rather than a raised fault. -/
theorem gateway_single_attempt_no_sleep_witness :
    (400 ≤ 500 ∧ 500 < 600) ∧
    (make_request [NetEvent.resp 500 (.obj []), NetEvent.resp 500 (.obj []),
        NetEvent.resp 500 (.obj [])] "works" []).attempts = 1 ∧
    (make_request [NetEvent.resp 500 (.obj []), NetEvent.resp 500 (.obj []),
        NetEvent.resp 500 (.obj [])] "works" []).sleeps = 0 ∧
    (search_openalex [NetEvent.resp 500 (.obj []), NetEvent.resp 500 (.obj []),
        NetEvent.resp 500 (.obj [])] 2025 "q" "works" none none none
        none none "cited_by_count" 10).result =
      .ok (.obj [("error", .str ("搜索失败: " ++ httpErrText (.httpError 500)))]) := by
  have h := gateway_single_attempt_no_sleep 500 (.obj [])
    [NetEvent.resp 500 (.obj []), NetEvent.resp 500 (.obj [])] "works" []
    (by decide) (by decide)
  exact ⟨⟨by decide, by decide⟩, h.1, h.2.1, h.2.2.2.1⟩

/-- C4 counterexample: on a 404 the search tool does return a structured
mapping after a single call, but the mapping carries only an `error` key —
`error_type`, `status_code` and `suggestion` cannot be read from it, and
no remediation suggestion or body truncation exists. -/
theorem search_404_error_mapping_shape :
    (search_openalex [.resp 404 (.obj [])] 2025 "x" "works" none none none
        none none "cited_by_count" 10).result =
      .ok (.obj [("error", .str "搜索失败: 404 Error")]) ∧
    (search_openalex [.resp 404 (.obj [])] 2025 "x" "works" none none none
        none none "cited_by_count" 10).calls.length = 1 ∧
    resultLookup (.obj [("error", .str "搜索失败: 404 Error")]) "error_type" = none ∧
    resultLookup (.obj [("error", .str "搜索失败: 404 Error")]) "status_code" = none ∧
    resultLookup (.obj [("error", .str "搜索失败: 404 Error")]) "suggestion" = none := by
  refine ⟨by rfl, by rfl, rfl, rfl, rfl⟩

/-- C4 (amended): on a 4xx other than 429 no retry is performed — the
tool issues exactly one HTTP call and returns a structured mapping, never
a raised fault; but the mapping holds a single `error` key with a
human-readable message embedding the HTTP error text, and exposes no
`error_type`, `status_code` or `suggestion` keys and no truncated body. -/
theorem client_error_single_error_key (s : Nat) (body : Json)
    (rest : List NetEvent) (currentYear : Int) (query entity_type endpoint : String)
    (year_from year_to : Option Int) (country institution : Option String)
    (open_access : Option Bool) (sort_by : String) (limit : Int)
    (identifier fentity fendpoint : String) (include_related : Bool)
    (hs : ENTITY_TYPES.lookup entity_type = some endpoint)
    (hf : ENTITY_TYPE_SINGULAR.lookup fentity = some fendpoint)
    (h4 : 400 ≤ s) (h5 : s < 500) (_h429 : s ≠ 429) :
    (search_openalex (.resp s body :: rest) currentYear query entity_type
        year_from year_to country institution open_access sort_by limit).result =
      .ok (.obj [("error", .str ("搜索失败: " ++ httpErrText (.httpError s)))]) ∧
    (search_openalex (.resp s body :: rest) currentYear query entity_type
        year_from year_to country institution open_access sort_by limit).calls.length = 1 ∧
    (fetch_openalex (.resp s body :: rest) identifier fentity include_related).result =
      .ok (.obj [("error", .str ("获取失败: " ++ httpErrText (.httpError s)))]) ∧
    (fetch_openalex (.resp s body :: rest) identifier fentity include_related).calls.length = 1 ∧
    resultLookup (.obj [("error", .str ("搜索失败: " ++ httpErrText (.httpError s)))])
      "error_type" = none ∧
    resultLookup (.obj [("error", .str ("搜索失败: " ++ httpErrText (.httpError s)))])
      "status_code" = none ∧
    resultLookup (.obj [("error", .str ("搜索失败: " ++ httpErrText (.httpError s)))])
      "suggestion" = none ∧
    (resultLookup (.obj [("error", .str ("搜索失败: " ++ httpErrText (.httpError s)))])
      "error").isSome = true := by
  have hrs : raise_for_status s = .error (.httpError s) := by
    rw [raise_for_status, if_pos ⟨h4, by omega⟩]
  refine ⟨?_, ?_, ?_, ?_, rfl, rfl, rfl, rfl⟩
  · simp [search_openalex, make_request, hrs, error_bind, hs]
  · simp [search_openalex, make_request, hrs, error_bind, hs]
  · simp [fetch_openalex, make_request, hrs, error_bind, hf]
  · simp [fetch_openalex, make_request, hrs, error_bind, hf]

/-- Witness for C4: status 404 against valid entity types. -/
theorem client_error_single_error_key_witness :
    (ENTITY_TYPES.lookup "works" = some "works" ∧
     ENTITY_TYPE_SINGULAR.lookup "work" = some "works" ∧
     400 ≤ 404 ∧ 404 < 500 ∧ 404 ≠ 429) ∧
    (fetch_openalex [.resp 404 (.obj [])] "W1" "work" true).result =
      .ok (.obj [("error", .str ("获取失败: " ++ httpErrText (.httpError 404)))]) := by
  have h := client_error_single_error_key 404 (.obj []) [] 2025 "x" "works"
    "works" none none none none none "cited_by_count" 10 "W1" "work" "works"
    true rfl rfl (by decide) (by decide) (by decide)
  exact ⟨⟨rfl, rfl, by decide, by decide, by decide⟩, h.2.2.1⟩

/-- C9 (spec-modelled): the batch-fetch tool accepts between 1 and 50
identifiers — an empty or oversized list is rejected with a local
validation fault before any network call, and exactly 50 identifiers
succeed with exactly one network call whose filter clause OR-joins all 50
identifiers with pipes. -/
theorem batch_fetch_bounds (ids : List String) :
    batch_fetch_openalex [] =
      .error "ToolError: the identifiers list must contain between 1 and 50 items" ∧
    (ids.length = 51 → batch_fetch_openalex ids =
      .error "ToolError: the identifiers list must contain between 1 and 50 items") ∧
    (ids.length = 50 → batch_fetch_openalex ids =
      .ok (1, (if (ids.headD "").startsWith "10." then "doi" else "openalex_id") ++
        ":" ++ String.intercalate "|" ids)) := by
  refine ⟨rfl, ?_, ?_⟩
  · intro h51
    rw [batch_fetch_openalex, if_pos (by simp [h51])]
  · intro h50
    rw [batch_fetch_openalex, if_neg (by simp [h50])]

/-- Witness for C9: 51 identifiers fault locally, 50 succeed with one
call and a pipe-joined clause. -/
theorem batch_fetch_bounds_witness :
    (List.replicate 51 "W1").length = 51 ∧
    (List.replicate 50 "W1").length = 50 ∧
    batch_fetch_openalex (List.replicate 51 "W1") =
      .error "ToolError: the identifiers list must contain between 1 and 50 items" ∧
    batch_fetch_openalex (List.replicate 50 "W1") =
      .ok (1, "openalex_id:" ++ String.intercalate "|" (List.replicate 50 "W1")) := by
  refine ⟨by simp, by simp, (batch_fetch_bounds (List.replicate 51 "W1")).2.1 (by simp), ?_⟩
  have h := (batch_fetch_bounds (List.replicate 50 "W1")).2.2 (by simp)
  simpa using h

/-- C10: for every entity type outside the supported mapping, each tool
returns a mapping carrying an `error` key immediately, with an empty list
of HTTP calls — no network request is attempted. -/
theorem invalid_entity_type_immediate_error (entity_type : String)
    (net : List NetEvent) (currentYear : Int) (query : String)
    (year_from year_to : Option Int) (country institution : Option String)
    (open_access : Option Bool) (sort_by : String) (limit : Int)
    (identifier : String) (include_related : Bool) :
    (ENTITY_TYPES.lookup entity_type = none →
      search_openalex net currentYear query entity_type year_from year_to
          country institution open_access sort_by limit =
        { result := .ok (.obj [("error", .str (searchTypeErrMsg entity_type))]),
          calls := [], sleeps := 0 }) ∧
    (ENTITY_TYPE_SINGULAR.lookup entity_type = none →
      fetch_openalex net identifier entity_type include_related =
        { result := .ok (.obj [("error", .str (fetchTypeErrMsg entity_type))]),
          calls := [], sleeps := 0 }) ∧
    (resultLookup (.obj [("error", .str (searchTypeErrMsg entity_type))]) "error").isSome = true ∧
    (resultLookup (.obj [("error", .str (fetchTypeErrMsg entity_type))]) "error").isSome = true := by
  refine ⟨?_, ?_, rfl, rfl⟩
  · intro hs; simp [search_openalex, hs]
  · intro hf; simp [fetch_openalex, hf]

/-- Witness for C10: the unsupported entity type `papers` returns an
error mapping from both tools with no calls made. -/
theorem invalid_entity_type_immediate_error_witness :
    ENTITY_TYPES.lookup "papers" = none ∧
    ENTITY_TYPE_SINGULAR.lookup "papers" = none ∧
    (search_openalex [.resp 200 (.obj [])] 2025 "q" "papers" none none none
        none none "cited_by_count" 10).calls = [] ∧
    (fetch_openalex [.resp 200 (.obj [])] "W1" "papers" false).calls = [] := by
  have h := invalid_entity_type_immediate_error "papers" [.resp 200 (.obj [])]
    2025 "q" none none none none none "cited_by_count" 10 "W1" false
  exact ⟨rfl, rfl, by rw [h.1 rfl], by rw [(h.2.1) rfl]⟩

theorem dropWhile_nospace (l : List Char) (h : ∀ c ∈ l, isPySpace c = false) :
    l.dropWhile isPySpace = l := by
  cases l with
  | nil => rfl
  | cons c cs => simp [List.dropWhile_cons, h c (by simp)]

theorem pyStripChars_noop (l : List Char) (h : ∀ c ∈ l, isPySpace c = false) :
    pyStripChars l = l := by
  rw [pyStripChars, dropWhile_nospace l h,
    dropWhile_nospace _ (fun c hc => h c (List.mem_reverse.mp hc)),
    List.reverse_reverse]

theorem isPrefixOf_append_self (l t : List Char) : l.isPrefixOf (l ++ t) = true := by
  induction l with
  | nil => simp [List.isPrefixOf]
  | cons a as ih => simp [List.isPrefixOf, ih]

theorem isPrefixOf_cons_false (p : Char) (ps : List Char) (c : Char) (l : List Char)
    (h : (p == c) = false) : (p :: ps).isPrefixOf (c :: l) = false := by
  simp [List.isPrefixOf]
  intro e
  rw [e] at h
  simp at h

theorem replaceAll_cons_self (p : Char) (ps rep t : List Char) :
    replaceAll (p :: ps) rep ((p :: ps) ++ t) = rep ++ replaceAll (p :: ps) rep t := by
  have hpre : (p :: ps).isPrefixOf (p :: (ps ++ t)) = true := by
    have h := isPrefixOf_append_self (p :: ps) t
    simp only [List.cons_append] at h
    exact h
  rw [List.cons_append, replaceAll, if_pos hpre]
  congr 1
  simp

theorem replaceAll_no_head (p : Char) (ps rep : List Char) (l : List Char)
    (h : ∀ c ∈ l, (p == c) = false) : replaceAll (p :: ps) rep l = l := by
  induction l with
  | nil => simp [replaceAll]
  | cons c cs ih =>
    rw [replaceAll, if_neg (by simp [isPrefixOf_cons_false p ps c cs (h c (by simp))])]
    rw [ih (fun d hd => h d (by simp [hd]))]

theorem containsSub_found (p : Char) (ps l1 l2 : List Char) :
    containsSub (p :: ps) (l1 ++ ((p :: ps) ++ l2)) = true := by
  induction l1 with
  | nil =>
    have h := isPrefixOf_append_self (p :: ps) l2
    simp only [List.nil_append]
    rw [List.cons_append, containsSub]
    rw [← List.cons_append, h]
    simp
  | cons c cs ih =>
    rw [List.cons_append, containsSub, ih]
    simp

theorem containsSub_no_head (p : Char) (ps : List Char) (l : List Char)
    (h : ∀ c ∈ l, (p == c) = false) : containsSub (p :: ps) l = false := by
  induction l with
  | nil => simp [containsSub, List.isEmpty]
  | cons c cs ih =>
    rw [containsSub, isPrefixOf_cons_false p ps c cs (h c (by simp)),
      ih (fun d hd => h d (by simp [hd]))]
    rfl

theorem upper_ne_char (c : Char) (h : isUpperCh c = true) (x : Char)
    (hx : x.toNat < 65 ∨ 90 < x.toNat) : (x == c) = false := by
  refine beq_eq_false_iff_ne.mpr (fun e => ?_)
  simp [isUpperCh] at h
  subst e
  omega

theorem digit_ne_char (c : Char) (h : isDigitCh c = true) (x : Char)
    (hx : x.toNat < 48 ∨ 57 < x.toNat) : (x == c) = false := by
  refine beq_eq_false_iff_ne.mpr (fun e => ?_)
  simp [isDigitCh] at h
  subst e
  omega

theorem upper_ne_toNat (c : Char) (h : isUpperCh c = true) (x : Char)
    (hx : x.toNat < 65 ∨ 90 < x.toNat) : (c == x) = false := by
  refine beq_eq_false_iff_ne.mpr (fun e => ?_)
  simp [isUpperCh] at h
  subst e
  omega

theorem digit_ne_toNat (c : Char) (h : isDigitCh c = true) (x : Char)
    (hx : x.toNat < 48 ∨ 57 < x.toNat) : (c == x) = false := by
  refine beq_eq_false_iff_ne.mpr (fun e => ?_)
  simp [isDigitCh] at h
  subst e
  omega

theorem upper_nospace (c : Char) (h : isUpperCh c = true) : isPySpace c = false := by
  simp only [isPySpace, upper_ne_toNat c h ' ' (by decide),
    upper_ne_toNat c h '\t' (by decide), upper_ne_toNat c h '\n' (by decide),
    upper_ne_toNat c h '\x0d' (by decide), upper_ne_toNat c h '\x0b' (by decide),
    upper_ne_toNat c h '\x0c' (by decide)]
  rfl

theorem digit_nospace (c : Char) (h : isDigitCh c = true) : isPySpace c = false := by
  simp only [isPySpace, digit_ne_toNat c h ' ' (by decide),
    digit_ne_toNat c h '\t' (by decide), digit_ne_toNat c h '\n' (by decide),
    digit_ne_toNat c h '\x0d' (by decide), digit_ne_toNat c h '\x0b' (by decide),
    digit_ne_toNat c h '\x0c' (by decide)]
  rfl

theorem bareId_nospace (c : Char) (rest : List Char) (hc : isUpperCh c = true)
    (hr : ∀ d ∈ rest, isDigitCh d = true) :
    ∀ d ∈ (c :: rest), isPySpace d = false := by
  intro d hd
  rcases List.mem_cons.mp hd with rfl | hd'
  · exact upper_nospace d hc
  · exact digit_nospace d (hr d hd')

theorem norm_bareId (entity_type : String) (c : Char) (rest : List Char)
    (hc : isUpperCh c = true) (hr : ∀ d ∈ rest, isDigitCh d = true) :
    normalize_id_chars entity_type (c :: rest) = c :: rest := by
  have hstrip := pyStripChars_noop _ (bareId_nospace c rest hc hr)
  have hcat : catalogPre.isPrefixOf (c :: rest) = false :=
    isPrefixOf_cons_false _ _ _ _ (upper_ne_char c hc 'h' (by decide))
  have hdoi : doiNumPre.isPrefixOf (c :: rest) = false :=
    isPrefixOf_cons_false _ _ _ _ (upper_ne_char c hc '1' (by decide))
  have hcont : containsSub doiHost (c :: rest) = false := by
    refine containsSub_no_head 'd' _ _ ?_
    intro x hx
    rcases List.mem_cons.mp hx with rfl | hx'
    · exact upper_ne_char x hc 'd' (by decide)
    · exact digit_ne_char x (hr x hx') 'd' (by decide)
  have horc : orcidNumPre.isPrefixOf (c :: rest) = false :=
    isPrefixOf_cons_false _ _ _ _ (upper_ne_char c hc '0' (by decide))
  simp [normalize_id_chars, hstrip, hcat, hdoi, hcont, horc]

theorem catalogPre_nospace : ∀ c ∈ catalogPre, isPySpace c = false := by decide

theorem httpsDoiPre_nospace : ∀ c ∈ httpsDoiPre, isPySpace c = false := by decide

theorem doiHostPre_nospace : ∀ c ∈ doiHostPre, isPySpace c = false := by decide

theorem orcidUrlPre_nospace : ∀ c ∈ orcidUrlPre, isPySpace c = false := by decide

theorem norm_catalogUrl (entity_type : String) (c : Char) (rest : List Char)
    (hc : isUpperCh c = true) (hr : ∀ d ∈ rest, isDigitCh d = true) :
    normalize_id_chars entity_type (catalogPre ++ c :: rest) = c :: rest := by
  have hns : ∀ d ∈ (catalogPre ++ c :: rest), isPySpace d = false := by
    intro d hd
    rcases List.mem_append.mp hd with h1 | h2
    · exact catalogPre_nospace d h1
    · exact bareId_nospace c rest hc hr d h2
  have hstrip := pyStripChars_noop _ hns
  have hcatT : catalogPre.isPrefixOf (catalogPre ++ c :: rest) = true :=
    isPrefixOf_append_self _ _
  have hhead : ∀ x ∈ (c :: rest), ('h' == x) = false := by
    intro x hx
    rcases List.mem_cons.mp hx with rfl | hx'
    · exact upper_ne_char x hc 'h' (by decide)
    · exact digit_ne_char x (hr x hx') 'h' (by decide)
  have hrepl : replaceAll catalogPre [] (catalogPre ++ c :: rest) = c :: rest := by
    rw [show catalogPre = 'h' :: "ttps://openalex.org/".toList from rfl]
    rw [replaceAll_cons_self]
    rw [replaceAll_no_head _ _ _ _ hhead]
    rfl
  have hdoi : doiNumPre.isPrefixOf (c :: rest) = false :=
    isPrefixOf_cons_false _ _ _ _ (upper_ne_char c hc '1' (by decide))
  have hcont : containsSub doiHost (c :: rest) = false := by
    refine containsSub_no_head 'd' _ _ ?_
    intro x hx
    rcases List.mem_cons.mp hx with rfl | hx'
    · exact upper_ne_char x hc 'd' (by decide)
    · exact digit_ne_char x (hr x hx') 'd' (by decide)
  have horc : orcidNumPre.isPrefixOf (c :: rest) = false :=
    isPrefixOf_cons_false _ _ _ _ (upper_ne_char c hc '0' (by decide))
  simp [normalize_id_chars, hstrip, hcatT, hrepl, hdoi, hcont, horc]

theorem norm_doiUrl_fixed (rest : List Char) (h : ∀ c ∈ rest, isPySpace c = false) :
    normalize_id_chars "work" (httpsDoiPre ++ rest) = httpsDoiPre ++ rest := by
  have hns : ∀ c ∈ (httpsDoiPre ++ rest), isPySpace c = false := by
    intro c hc
    rcases List.mem_append.mp hc with h1 | h2
    · exact httpsDoiPre_nospace c h1
    · exact h c h2
  have hstrip := pyStripChars_noop _ hns
  have hcat : catalogPre.isPrefixOf (httpsDoiPre ++ rest) = false := by rfl
  have hcont : containsSub doiHost (httpsDoiPre ++ rest) = true := by
    rw [show httpsDoiPre ++ rest = httpsPre ++ (doiHost ++ ('/' :: rest)) from rfl]
    rw [show doiHost = 'd' :: "oi.org".toList from rfl]
    exact containsSub_found 'd' _ httpsPre ('/' :: rest)
  have hd2 : httpsDoiPre.isPrefixOf (httpsDoiPre ++ rest) = true :=
    isPrefixOf_append_self _ _
  simp [normalize_id_chars, hstrip, hcat, hcont, hd2]

theorem norm_bareDoi (rest : List Char) (h : ∀ c ∈ rest, isPySpace c = false) :
    normalize_id_chars "work" ('1' :: '0' :: '.' :: rest) =
      httpsDoiPre ++ ('1' :: '0' :: '.' :: rest) := by
  have hns : ∀ c ∈ ('1' :: '0' :: '.' :: rest), isPySpace c = false := by
    intro c hc
    simp only [List.mem_cons] at hc
    rcases hc with rfl | rfl | rfl | hc' <;> first | rfl | exact h c hc'
  have hstrip := pyStripChars_noop _ hns
  have hcat : catalogPre.isPrefixOf ('1' :: '0' :: '.' :: rest) = false := by rfl
  have hdoi : doiNumPre.isPrefixOf ('1' :: '0' :: '.' :: rest) = true :=
    isPrefixOf_append_self doiNumPre rest
  have hh : httpsDoiPre.isPrefixOf ('1' :: '0' :: '.' :: rest) = false := by rfl
  have hdh : doiHostPre.isPrefixOf ('1' :: '0' :: '.' :: rest) = false := by rfl
  simp [normalize_id_chars, hstrip, hcat, hdoi, hh, hdh]

theorem norm_doiHostUrl (rest : List Char) (h : ∀ c ∈ rest, isPySpace c = false) :
    normalize_id_chars "work" (doiHostPre ++ rest) = httpsDoiPre ++ rest := by
  have hns : ∀ c ∈ (doiHostPre ++ rest), isPySpace c = false := by
    intro c hc
    rcases List.mem_append.mp hc with h1 | h2
    · exact doiHostPre_nospace c h1
    · exact h c h2
  have hstrip := pyStripChars_noop _ hns
  have hcat : catalogPre.isPrefixOf (doiHostPre ++ rest) = false := by rfl
  have hdoi : doiNumPre.isPrefixOf (doiHostPre ++ rest) = false := by rfl
  have hcont : containsSub doiHost (doiHostPre ++ rest) = true := by
    rw [show doiHostPre ++ rest = doiHost ++ ('/' :: rest) from rfl]
    rw [show doiHost = 'd' :: "oi.org".toList from rfl]
    exact containsSub_found 'd' _ [] ('/' :: rest)
  have hh : httpsDoiPre.isPrefixOf (doiHostPre ++ rest) = false := by rfl
  have hdh : doiHostPre.isPrefixOf (doiHostPre ++ rest) = true :=
    isPrefixOf_append_self _ _
  have hfin : httpsPre ++ (doiHostPre ++ rest) = httpsDoiPre ++ rest := rfl
  simp [normalize_id_chars, hstrip, hcat, hdoi, hcont, hh, hdh, hfin]

theorem norm_bareOrcid (rest : List Char) (h : ∀ c ∈ rest, isPySpace c = false) :
    normalize_id_chars "author" ('0' :: '0' :: '0' :: '0' :: '-' :: rest) =
      orcidUrlPre ++ ('0' :: '0' :: '0' :: '0' :: '-' :: rest) := by
  have hns : ∀ c ∈ ('0' :: '0' :: '0' :: '0' :: '-' :: rest), isPySpace c = false := by
    intro c hc
    simp only [List.mem_cons] at hc
    rcases hc with rfl | rfl | rfl | rfl | rfl | hc' <;> first | rfl | exact h c hc'
  have hstrip := pyStripChars_noop _ hns
  have hcat : catalogPre.isPrefixOf ('0' :: '0' :: '0' :: '0' :: '-' :: rest) = false := by rfl
  have horc : orcidNumPre.isPrefixOf ('0' :: '0' :: '0' :: '0' :: '-' :: rest) = true :=
    isPrefixOf_append_self orcidNumPre rest
  simp [normalize_id_chars, hstrip, hcat, horc]

theorem norm_orcidUrl_fixed (rest : List Char) (h : ∀ c ∈ rest, isPySpace c = false) :
    normalize_id_chars "author" (orcidUrlPre ++ rest) = orcidUrlPre ++ rest := by
  have hns : ∀ c ∈ (orcidUrlPre ++ rest), isPySpace c = false := by
    intro c hc
    rcases List.mem_append.mp hc with h1 | h2
    · exact orcidUrlPre_nospace c h1
    · exact h c h2
  have hstrip := pyStripChars_noop _ hns
  have hcat : catalogPre.isPrefixOf (orcidUrlPre ++ rest) = false := by rfl
  have horc : orcidNumPre.isPrefixOf (orcidUrlPre ++ rest) = false := by rfl
  simp [normalize_id_chars, hstrip, hcat, horc]

theorem normalize_chars_idem (entity_type : String) (identifier : List Char)
    (h : SupportedIdForm entity_type identifier) :
    normalize_id_chars entity_type (normalize_id_chars entity_type identifier) =
      normalize_id_chars entity_type identifier := by
  cases h with
  | bareId et c rest hc hr =>
    rw [norm_bareId entity_type c rest hc hr, norm_bareId entity_type c rest hc hr]
  | catalogUrl et c rest hc hr =>
    rw [norm_catalogUrl entity_type c rest hc hr, norm_bareId entity_type c rest hc hr]
  | bareDoi rest hr =>
    rw [norm_bareDoi rest hr,
      norm_doiUrl_fixed _ (fun c hc => by
        simp only [List.mem_cons] at hc
        rcases hc with rfl | rfl | rfl | hc' <;> first | rfl | exact hr c hc')]
  | doiUrl rest hr =>
    rw [norm_doiUrl_fixed _ (fun c hc => by
        simp only [List.mem_cons] at hc
        rcases hc with rfl | rfl | rfl | hc' <;> first | rfl | exact hr c hc'),
      norm_doiUrl_fixed _ (fun c hc => by
        simp only [List.mem_cons] at hc
        rcases hc with rfl | rfl | rfl | hc' <;> first | rfl | exact hr c hc')]
  | doiHostUrl rest hr =>
    have hx : ∀ c ∈ ('1' :: '0' :: '.' :: rest), isPySpace c = false := fun c hc => by
      simp only [List.mem_cons] at hc
      rcases hc with rfl | rfl | rfl | hc' <;> first | rfl | exact hr c hc'
    rw [norm_doiHostUrl _ hx, norm_doiUrl_fixed _ hx]
  | bareOrcid rest hr =>
    have hx : ∀ c ∈ ('0' :: '0' :: '0' :: '0' :: '-' :: rest), isPySpace c = false := fun c hc => by
      simp only [List.mem_cons] at hc
      rcases hc with rfl | rfl | rfl | rfl | rfl | hc' <;> first | rfl | exact hr c hc'
    rw [norm_bareOrcid rest hr, norm_orcidUrl_fixed _ hx]
  | orcidUrl rest hr =>
    have hx : ∀ c ∈ ('0' :: '0' :: '0' :: '0' :: '-' :: rest), isPySpace c = false := fun c hc => by
      simp only [List.mem_cons] at hc
      rcases hc with rfl | rfl | rfl | rfl | rfl | hc' <;> first | rfl | exact hr c hc'
    rw [norm_orcidUrl_fixed _ hx, norm_orcidUrl_fixed _ hx]

/-- C6: identifier normalization is idempotent — for every supported
identifier form (bare catalog ID, catalog URL, bare DOI, DOI-resolver URL
with or without the scheme, bare ORCID, ORCID URL) with its matching
entity type, normalizing an already-normalized identifier yields the same
string. -/
theorem identifier_normalization_idempotent (entity_type : String) (s : String)
    (h : SupportedIdForm entity_type s.toList) :
    normalize_identifier entity_type (normalize_identifier entity_type s) =
      normalize_identifier entity_type s := by
  have key := normalize_chars_idem entity_type s.toList h
  show String.mk (normalize_id_chars entity_type
      (String.mk (normalize_id_chars entity_type s.toList)).toList) =
    String.mk (normalize_id_chars entity_type s.toList)
  rw [show (String.mk (normalize_id_chars entity_type s.toList)).toList =
    normalize_id_chars entity_type s.toList from rfl, key]

/-- Witness for C6: a bare DOI for a work and a bare ORCID for an author
are supported forms and normalize idempotently. -/
theorem identifier_normalization_idempotent_witness :
    SupportedIdForm "work" ("10.1038/nature14539").toList ∧
    normalize_identifier "work" (normalize_identifier "work" "10.1038/nature14539") =
      normalize_identifier "work" "10.1038/nature14539" ∧
    SupportedIdForm "author" ("0000-0001-6187-6610").toList ∧
    normalize_identifier "author" (normalize_identifier "author" "0000-0001-6187-6610") =
      normalize_identifier "author" "0000-0001-6187-6610" := by
  have h1 : SupportedIdForm "work" ("10.1038/nature14539").toList := by
    rw [show ("10.1038/nature14539").toList =
      '1' :: '0' :: '.' :: ("1038/nature14539").toList from rfl]
    exact SupportedIdForm.bareDoi _ (by unfold noSpaceChars; decide)
  have h2 : SupportedIdForm "author" ("0000-0001-6187-6610").toList := by
    rw [show ("0000-0001-6187-6610").toList =
      '0' :: '0' :: '0' :: '0' :: '-' :: ("0001-6187-6610").toList from rfl]
    exact SupportedIdForm.bareOrcid _ (by unfold noSpaceChars; decide)
  exact ⟨h1, identifier_normalization_idempotent _ _ h1, h2,
    identifier_normalization_idempotent _ _ h2⟩

end OpenAlex
